import Mathlib

/-!
Verification of the Tiny Glade Blender add-on conversion pipeline.

This file gives a shallow embedding of the add-on's import/export code
(`src/operators.py`, `src/utils.py`) and proves or refutes the claims of
the natural-language specification against it.  Machine floats are
modelled by exact rationals: every operation the code performs on
coordinates (negation, axis permutation) is exact in IEEE floats as well.
Host (Blender) calls are modelled by recording their arguments in the
result structure; the add-on's own Python-level failure points (list
indexing, attribute access on `None`) are modelled explicitly.
-/

namespace TinyGlade

/-- Three-component vector, modelling `mathutils.Vector` with exact rationals. -/
structure Vec3 where
  x : Rat
  y : Rat
  z : Rat
deriving DecidableEq, Repr

/-- Embedding of `flip_vector_orientation` from `src/utils.py`:
`return Vector((-vector.x, vector.z, vector.y))`. -/
def flip_vector_orientation (v : Vec3) : Vec3 :=
  ⟨-v.x, v.z, v.y⟩

/-- A JSON attribute object, holding an optional `buffer` key
(the `type` key is never read by the import code). -/
structure JsonAttr (α : Type) where
  buffer : Option (List α)
deriving DecidableEq, Repr

/-- Embedding of `data.get(key, {}).get("buffer", [])`: an absent key or an
absent `buffer` sub-key yields the empty list. -/
def getBuffer {α : Type} (o : Option (JsonAttr α)) : List α :=
  ((o.getD ⟨none⟩).buffer).getD []

/-- The JSON value found under the `indices` key: the key may be absent,
hold `null` (as written by an export without faces), or hold an object. -/
inductive JIndices where
  | absent : JIndices
  | null : JIndices
  | obj (a : JsonAttr Nat) : JIndices
deriving DecidableEq, Repr

/-- A parsed Tiny Glade JSON document, holding exactly the keys the import
operator reads.  Colors are triples (the import reads components 0..2),
UVs are pairs, flags are integers. -/
structure TGDoc where
  attributes : Option (List String)
  vertex_Position : Option (JsonAttr Vec3)
  vertex_Normal : Option (JsonAttr Vec3)
  vertex_Color : Option (JsonAttr (Rat × Rat × Rat))
  vertex_UV : Option (JsonAttr (Rat × Rat))
  indices : JIndices
  prim_center : Option (JsonAttr Vec3)
  appear_pos : Option (JsonAttr Vec3)
  is_metal : Option (JsonAttr Int)
  is_glass : Option (JsonAttr Int)
deriving DecidableEq, Repr

/-- The document with every key absent. -/
def TGDoc.empty : TGDoc :=
  ⟨none, none, none, none, none, JIndices.absent, none, none, none, none⟩

/-- Embedding of `[indices[i:i+3] for i in range(0, len(indices), 3)]`:
chunks of three, with a short final chunk when the length is not a
multiple of three. -/
def chunk3 {α : Type} : List α → List (List α)
  | a :: b :: c :: rest => [a, b, c] :: chunk3 rest
  | [] => []
  | [a] => [[a]]
  | [a, b] => [[a, b]]

/-- The decoded Python values built by lines 36-45 of
`ImportTinyGladeJSON.execute` (`src/operators.py`). -/
structure DecodedData where
  vertex_positions : List Vec3
  vertex_normals : List Vec3
  vertex_colors : List (Rat × Rat × Rat)
  vertex_UV : List (Rat × Rat)
  indices : List Nat
  faces : List (List Nat)
  prim_center : List Vec3
  appear_pos : List Vec3
  is_metal : List Int
  is_glass : List Int
deriving DecidableEq, Repr

/-- Failure modes of the import operator's own Python code: an
`AttributeError` from `None.get` (when the `indices` key holds `null`) and
an `IndexError` from indexing a decoded buffer past its end. -/
inductive ImportError where
  | attributeError : ImportError
  | indexError : ImportError
deriving DecidableEq, Repr

/-- Result of the decode stage. -/
inductive DecodeResult where
  | err (e : ImportError) : DecodeResult
  | ok (d : DecodedData) : DecodeResult
deriving DecidableEq, Repr

/-- The decoded buffers of lines 36-45 of `ImportTinyGladeJSON.execute`,
given the already-extracted indices list. -/
def decodeWith (d : TGDoc) (ind : List Nat) : DecodedData :=
  { vertex_positions := (getBuffer d.vertex_Position).map flip_vector_orientation
    vertex_normals := (getBuffer d.vertex_Normal).map flip_vector_orientation
    vertex_colors := getBuffer d.vertex_Color
    vertex_UV := getBuffer d.vertex_UV
    indices := ind
    faces := chunk3 ind
    prim_center := (getBuffer d.prim_center).map flip_vector_orientation
    appear_pos := (getBuffer d.appear_pos).map flip_vector_orientation
    is_metal := getBuffer d.is_metal
    is_glass := getBuffer d.is_glass }

/-- Embedding of the decode stage of `ImportTinyGladeJSON.execute`
(lines 36-45): every attribute lookup defaults to an empty list; the only
failure point is `data.get("indices",{}).get("buffer", [])` when the
`indices` key holds `null`, which raises `AttributeError` in Python. -/
def decode (d : TGDoc) : DecodeResult :=
  match d.indices with
  | JIndices.null => DecodeResult.err ImportError.attributeError
  | JIndices.absent => DecodeResult.ok (decodeWith d [])
  | JIndices.obj a => DecodeResult.ok (decodeWith d (a.buffer.getD []))

/-- The scene state produced by a finished import: the meshes created and
linked, the geometry handed to the host's `from_pydata`, and the
attribute layers written on the new mesh. -/
structure ImportedScene where
  createdMeshes : List String
  vertex_positions : List Vec3
  vertex_normals : List Vec3
  faces : List (List Nat)
  prim_center : List Vec3
  appear_pos : List Vec3
  colorAttr : Option (List (Rat × Rat × Rat × Rat))
  uvLoops : Option (List (Rat × Rat))
  metalAttr : Option (List Int)
  glassAttr : Option (List Int)
deriving DecidableEq, Repr

/-- Result of running the import operator. -/
inductive ImportResult where
  | err (e : ImportError) : ImportResult
  | finished (s : ImportedScene) : ImportResult
deriving DecidableEq, Repr

/-- Embedding of the mesh-building stage of `ImportTinyGladeJSON.execute`
(lines 46-100).  The main mesh and object are created and linked
unconditionally; `PrimCenterMesh` and `AppearPosMesh` are created when the
corresponding buffers are non-empty.  `mesh.from_pydata` is a host call
modelled as recording the position and face lists; it performs no index
validation.  The vertex count of the new mesh equals the length of the
position buffer.  The add-on's own indexing can raise:
`vertex_colors[v_index]` for each vertex index below the vertex count,
`vertex_UV[vertex_idx]` for each loop's vertex index, and
`metal_attr.data[i]` / `glass_attr.data[i]` for each flag buffer entry
(the attribute layers have one slot per vertex). -/
def buildScene (dec : DecodedData) : ImportResult :=
  let nVerts := dec.vertex_positions.length
  let created := ["TinyGladeMesh"]
    ++ (if dec.prim_center ≠ [] then ["PrimCenterMesh"] else [])
    ++ (if dec.appear_pos ≠ [] then ["AppearPosMesh"] else [])
  let loopVerts := dec.faces.flatten
  if dec.vertex_colors ≠ [] ∧ dec.vertex_colors.length < nVerts then
    ImportResult.err ImportError.indexError
  else if dec.vertex_UV ≠ [] ∧ ¬ (∀ i ∈ loopVerts, i < dec.vertex_UV.length) then
    ImportResult.err ImportError.indexError
  else if dec.is_metal ≠ [] ∧ nVerts < dec.is_metal.length then
    ImportResult.err ImportError.indexError
  else if dec.is_glass ≠ [] ∧ nVerts < dec.is_glass.length then
    ImportResult.err ImportError.indexError
  else
    ImportResult.finished
      { createdMeshes := created
        vertex_positions := dec.vertex_positions
        vertex_normals := dec.vertex_normals
        faces := dec.faces
        prim_center := dec.prim_center
        appear_pos := dec.appear_pos
        colorAttr :=
          if dec.vertex_colors ≠ [] then
            some (((List.range nVerts).map (fun v => dec.vertex_colors.getD v (0, 0, 0))).map
              (fun c => (c.1, c.2.1, c.2.2, 1)))
          else none
        uvLoops :=
          if dec.vertex_UV ≠ [] then
            some (loopVerts.map (fun i => dec.vertex_UV.getD i (0, 0)))
          else none
        metalAttr :=
          if dec.is_metal ≠ [] then
            some (dec.is_metal ++ List.replicate (nVerts - dec.is_metal.length) 0)
          else none
        glassAttr :=
          if dec.is_glass ≠ [] then
            some (dec.is_glass ++ List.replicate (nVerts - dec.is_glass.length) 0)
          else none }

/-- Embedding of the whole of `ImportTinyGladeJSON.execute`: decode the
document, then build the scene. -/
def importExecute (d : TGDoc) : ImportResult :=
  match decode d with
  | DecodeResult.err e => ImportResult.err e
  | DecodeResult.ok dec => buildScene dec

/-- C1: the coordinate transform used identically on import and export is
self-inverse: applying `flip_vector_orientation` twice is the identity on
every 3-vector, so positions and normals round-trip exactly. -/
theorem C1_flip_involution (v : Vec3) :
    flip_vector_orientation (flip_vector_orientation v) = v := by
  cases v with
  | mk x y z => simp [flip_vector_orientation]

/-- A document holding only a position buffer and an indices buffer. -/
def posIndicesDoc (ps : List Vec3) (ind : List Nat) : TGDoc :=
  { TGDoc.empty with
    vertex_Position := some ⟨some ps⟩
    indices := JIndices.obj ⟨some ind⟩ }

/-- Test document for C3: one vertex, an indices buffer referencing the
out-of-range vertices 5, 6 and 7. -/
def c3Doc : TGDoc := posIndicesDoc [⟨0, 0, 0⟩] [5, 6, 7]

/-- C3 counterexample: `c3Doc` has an indices entry (5) that is at least
the length of its `Vertex_Position` buffer (1), yet the import runs to
completion and reports no error of any kind: the claim that such a
document fails with an InvalidFormat error is false. -/
theorem C3_counterexample :
    (∃ i ∈ [5, 6, 7], (getBuffer c3Doc.vertex_Position).length ≤ i)
      ∧ c3Doc.indices = JIndices.obj ⟨some [5, 6, 7]⟩
      ∧ importExecute c3Doc = ImportResult.finished
          { createdMeshes := ["TinyGladeMesh"]
            vertex_positions := [⟨0, 0, 0⟩]
            vertex_normals := []
            faces := [[5, 6, 7]]
            prim_center := []
            appear_pos := []
            colorAttr := none
            uvLoops := none
            metalAttr := none
            glassAttr := none } := by
  decide

/-- C3 amended: the import performs no index-bound validation at all.  A
document whose indices buffer contains an entry at least the length of the
position buffer still decodes and imports successfully; the out-of-range
index triples are handed unchanged to the host mesh builder, and no
InvalidFormat condition is raised anywhere in the add-on code. -/
theorem C3_amended (ps : List Vec3) (ind : List Nat)
    (h : ∃ i ∈ ind, ps.length ≤ i) :
    importExecute (posIndicesDoc ps ind) = ImportResult.finished
      { createdMeshes := ["TinyGladeMesh"]
        vertex_positions := ps.map flip_vector_orientation
        vertex_normals := []
        faces := chunk3 ind
        prim_center := []
        appear_pos := []
        colorAttr := none
        uvLoops := none
        metalAttr := none
        glassAttr := none } := by
  simp [importExecute, decode, posIndicesDoc, TGDoc.empty, decodeWith, buildScene, getBuffer]

/-- Witness for C3 amended at a concrete out-of-range document. -/
theorem C3_amended_witness :
    importExecute (posIndicesDoc [⟨0, 0, 0⟩] [5, 6, 7]) = ImportResult.finished
      { createdMeshes := ["TinyGladeMesh"]
        vertex_positions := [⟨0, 0, 0⟩].map flip_vector_orientation
        vertex_normals := []
        faces := chunk3 [5, 6, 7]
        prim_center := []
        appear_pos := []
        colorAttr := none
        uvLoops := none
        metalAttr := none
        glassAttr := none } :=
  C3_amended [⟨0, 0, 0⟩] [5, 6, 7] ⟨5, by decide, by decide⟩

/-- A document holding only an indices buffer, with no `Vertex_Position`. -/
def indicesOnlyDoc (ind : List Nat) : TGDoc :=
  { TGDoc.empty with indices := JIndices.obj ⟨some ind⟩ }

/-- Test document for C4: no `Vertex_Position` key, non-empty indices. -/
def c4Doc : TGDoc := indicesOnlyDoc [0, 1, 2]

/-- C4 counterexample: `c4Doc` is missing `Vertex_Position` while its
indices buffer is non-empty, yet the import neither raises an
InvalidFormat error nor aborts: it runs to completion and the mesh object
is created and linked regardless, so the claim is false. -/
theorem C4_counterexample :
    c4Doc.vertex_Position = none
      ∧ c4Doc.indices = JIndices.obj ⟨some [0, 1, 2]⟩ ∧ ([0, 1, 2] : List Nat) ≠ []
      ∧ importExecute c4Doc = ImportResult.finished
          { createdMeshes := ["TinyGladeMesh"]
            vertex_positions := []
            vertex_normals := []
            faces := [[0, 1, 2]]
            prim_center := []
            appear_pos := []
            colorAttr := none
            uvLoops := none
            metalAttr := none
            glassAttr := none } := by
  decide

/-- C4 amended: importing a document that is missing `Vertex_Position`
while a non-empty indices buffer is present does not fail in the add-on:
the decoded position buffer is empty, the mesh object is still created and
linked, and the chunked index triples are handed to the host mesh builder;
no InvalidFormat condition and no abort occur in the add-on code. -/
theorem C4_amended (ind : List Nat) (h : ind ≠ []) :
    importExecute (indicesOnlyDoc ind) = ImportResult.finished
      { createdMeshes := ["TinyGladeMesh"]
        vertex_positions := []
        vertex_normals := []
        faces := chunk3 ind
        prim_center := []
        appear_pos := []
        colorAttr := none
        uvLoops := none
        metalAttr := none
        glassAttr := none } := by
  simp [importExecute, decode, indicesOnlyDoc, TGDoc.empty, decodeWith, buildScene, getBuffer]

/-- Witness for C4 amended at a concrete document. -/
theorem C4_amended_witness :
    importExecute (indicesOnlyDoc [0, 1, 2]) = ImportResult.finished
      { createdMeshes := ["TinyGladeMesh"]
        vertex_positions := []
        vertex_normals := []
        faces := chunk3 [0, 1, 2]
        prim_center := []
        appear_pos := []
        colorAttr := none
        uvLoops := none
        metalAttr := none
        glassAttr := none } :=
  C4_amended [0, 1, 2] (by decide)

/-- The key, or its `buffer` sub-key, is absent. -/
def keyOrBufferAbsent {α : Type} (o : Option (JsonAttr α)) : Prop :=
  o = none ∨ o = some ⟨none⟩

/-- An absent key or absent `buffer` sub-key decodes to the empty list. -/
theorem getBuffer_of_absent {α : Type} (o : Option (JsonAttr α))
    (h : keyOrBufferAbsent o) : getBuffer o = [] := by
  rcases h with h | h <;> subst h <;> rfl

/-- The document `{"attributes":[],"indices":{"buffer":[]}}`. -/
def emptyAttrsDoc : TGDoc :=
  { TGDoc.empty with
    attributes := some []
    indices := JIndices.obj ⟨some []⟩ }

/-- C5: each of the optional attribute keys, when absent (or with its
`buffer` sub-key absent), decodes to the empty sequence without failing,
and the document with empty attributes and an empty indices buffer imports
successfully with zero vertices and zero triangles. -/
theorem C5_absent_attributes_default (d : TGDoc) (dec : DecodedData)
    (hdec : decode d = DecodeResult.ok dec) :
    (keyOrBufferAbsent d.vertex_Normal → dec.vertex_normals = [])
      ∧ (keyOrBufferAbsent d.vertex_Color → dec.vertex_colors = [])
      ∧ (keyOrBufferAbsent d.vertex_UV → dec.vertex_UV = [])
      ∧ (keyOrBufferAbsent d.is_metal → dec.is_metal = [])
      ∧ (keyOrBufferAbsent d.is_glass → dec.is_glass = [])
      ∧ (keyOrBufferAbsent d.prim_center → dec.prim_center = [])
      ∧ (keyOrBufferAbsent d.appear_pos → dec.appear_pos = [])
      ∧ importExecute emptyAttrsDoc = ImportResult.finished
          { createdMeshes := ["TinyGladeMesh"]
            vertex_positions := []
            vertex_normals := []
            faces := []
            prim_center := []
            appear_pos := []
            colorAttr := none
            uvLoops := none
            metalAttr := none
            glassAttr := none } := by
  have hfields : dec.vertex_normals = (getBuffer d.vertex_Normal).map flip_vector_orientation
      ∧ dec.vertex_colors = getBuffer d.vertex_Color
      ∧ dec.vertex_UV = getBuffer d.vertex_UV
      ∧ dec.is_metal = getBuffer d.is_metal
      ∧ dec.is_glass = getBuffer d.is_glass
      ∧ dec.prim_center = (getBuffer d.prim_center).map flip_vector_orientation
      ∧ dec.appear_pos = (getBuffer d.appear_pos).map flip_vector_orientation := by
    rcases hi : d.indices with _ | _ | a <;> simp [decode, hi] at hdec <;>
      cases hdec <;> simp [decodeWith]
  obtain ⟨h1, h2, h3, h4, h5, h6, h7⟩ := hfields
  refine ⟨?_, ?_, ?_, ?_, ?_, ?_, ?_, by decide⟩ <;> intro h <;>
    simp [h1, h2, h3, h4, h5, h6, h7, getBuffer_of_absent _ h]

/-- Witness for C5 at the all-absent document. -/
theorem C5_witness :
    (getBuffer TGDoc.empty.vertex_Normal).map flip_vector_orientation = ([] : List Vec3)
      ∧ importExecute emptyAttrsDoc = ImportResult.finished
          { createdMeshes := ["TinyGladeMesh"]
            vertex_positions := []
            vertex_normals := []
            faces := []
            prim_center := []
            appear_pos := []
            colorAttr := none
            uvLoops := none
            metalAttr := none
            glassAttr := none } := by
  have h := C5_absent_attributes_default TGDoc.empty (decodeWith TGDoc.empty []) (by decide)
  exact ⟨by simpa using h.1 (Or.inl rfl), h.2.2.2.2.2.2.2⟩

/-- Affine part of a Blender 4x4 world matrix: three rows of four
rationals (the bottom row of `matrix_world` is 0 0 0 1). -/
structure Mat4 where
  r0 : Rat × Rat × Rat × Rat
  r1 : Rat × Rat × Rat × Rat
  r2 : Rat × Rat × Rat × Rat
deriving DecidableEq, Repr

/-- Application of `matrix_world @ vertex.co` to a 3-vector. -/
def applyMat (m : Mat4) (v : Vec3) : Vec3 :=
  ⟨m.r0.1 * v.x + m.r0.2.1 * v.y + m.r0.2.2.1 * v.z + m.r0.2.2.2,
   m.r1.1 * v.x + m.r1.2.1 * v.y + m.r1.2.2.1 * v.z + m.r1.2.2.2,
   m.r2.1 * v.x + m.r2.2.1 * v.y + m.r2.2.2.1 * v.z + m.r2.2.2.2⟩

/-- Snapshot of a Blender mesh as read by the export operator: vertex
coordinates and normals, the active color layer (RGBA per item) if any
color attribute exists, the active UV layer (one UV per loop) if any UV
layer exists, the polygons as lists of vertex indices, and the custom
integer point attributes when present. -/
structure BMesh where
  vertices : List Vec3
  normals : List Vec3
  color_attributes_active : Option (List (Rat × Rat × Rat × Rat))
  uv_layers_active : Option (List (Rat × Rat))
  polygons : List (List Nat)
  attr_is_metal : Option (List Int)
  attr_is_glass : Option (List Int)
deriving DecidableEq, Repr

/-- Snapshot of a Blender object: its `type` string, world matrix and mesh
data. -/
structure BObject where
  type : String
  matrix_world : Mat4
  data : BMesh
deriving DecidableEq, Repr

/-- The seven boolean export options of `ExportTinyGladeJSON`. -/
structure ExportOptions where
  include_vertex_position : Bool
  include_vertex_normal : Bool
  include_vertex_color : Bool
  include_vertex_uv : Bool
  include_is_metal : Bool
  include_is_glass : Bool
  include_faces_indices : Bool
deriving DecidableEq, Repr

/-- The JSON document assembled by the export operator.  An `Option` field
set to `none` means the key is absent from the document; the `indices` key
is always present in the written JSON (its initial dictionary value is
`None`, serialized as `null`, modelled here by `none`). -/
structure ExportDoc where
  attributes : List String
  indices : Option (List Nat)
  vertex_Position : Option (List Vec3)
  vertex_Normal : Option (List Vec3)
  vertex_Color : Option (List (Rat × Rat × Rat))
  vertex_UV : Option (List (Rat × Rat))
  is_metal : Option (List Int)
  is_glass : Option (List Int)
deriving DecidableEq, Repr

/-- The freshly-initialized dictionary `{'attributes': [], 'indices': None}`. -/
def ExportDoc.init : ExportDoc :=
  ⟨[], none, none, none, none, none, none, none⟩

/-- Embedding of `add_vertex_positions`: world-transform every vertex,
apply the orientation flip, store the buffer and append the name. -/
def add_vertex_positions (obj : BObject) (doc : ExportDoc) : ExportDoc :=
  let vertices := obj.data.vertices.map (applyMat obj.matrix_world)
  let vertices_oriented := vertices.map flip_vector_orientation
  { doc with
    vertex_Position := some vertices_oriented
    attributes := doc.attributes ++ ["Vertex_Position"] }

/-- Embedding of `add_vertex_normals`: flip every per-vertex normal, store
the buffer and append the name. -/
def add_vertex_normals (mesh : BMesh) (doc : ExportDoc) : ExportDoc :=
  { doc with
    vertex_Normal := some (mesh.normals.map flip_vector_orientation)
    attributes := doc.attributes ++ ["Vertex_Normal"] }

/-- Embedding of `add_vertex_colors`: when color attributes exist, store
every item of the active layer with its alpha component dropped
(`list(loop.color)[:-1]`) and append the name; otherwise do nothing. -/
def add_vertex_colors (mesh : BMesh) (doc : ExportDoc) : ExportDoc :=
  match mesh.color_attributes_active with
  | none => doc
  | some cols =>
      { doc with
        vertex_Color := some (cols.map (fun c => (c.1, c.2.1, c.2.2.1)))
        attributes := doc.attributes ++ ["Vertex_Color"] }

/-- Embedding of `add_faces_indices`: the triangulated copy of the mesh is
built and immediately discarded; the emitted buffer takes the first three
vertices of every polygon of the original mesh. -/
def add_faces_indices (mesh : BMesh) (doc : ExportDoc) : ExportDoc :=
  { doc with indices := some ((mesh.polygons.map (fun p => p.take 3)).flatten) }

/-- Python dict assignment on an association list: when the key is already
present its value is updated in place (keeping its position), otherwise
the pair is appended. -/
def dinsert {α : Type} (m : List (Nat × α)) (k : Nat) (v : α) : List (Nat × α) :=
  if m.any (fun p => p.1 == k) then
    m.map (fun p => if p.1 == k then (k, v) else p)
  else m ++ [(k, v)]

/-- Embedding of the dict comprehension
`{index: uv_layer[i] for i, index in enumerate(faces)}`: the entries of
`faces` are inserted left to right with Python dict-assignment semantics,
pairing each with the UV at its position in the flattened walk; `i` is the
running position counter. -/
def buildUVMap {α : Type} (uvLayer : List α) (dflt : α)
    (m : List (Nat × α)) (i : Nat) : List Nat → List (Nat × α)
  | [] => m
  | idx :: rest => buildUVMap uvLayer dflt (dinsert m idx (uvLayer.getD i dflt)) (i + 1) rest

/-- Embedding of the `seen_uv` loop: walk the dict items in order and keep
each pair whose key has not been kept yet. -/
def seenFilter {α : Type} (acc : List (Nat × α)) : List (Nat × α) → List (Nat × α)
  | [] => acc
  | p :: rest =>
      seenFilter (if acc.any (fun q => q.1 == p.1) then acc else acc ++ [p]) rest

/-- The key-sorted pair list of `add_vertex_UV`, modelling
`sorted(seen_uv.items())` (keys are unique, so sorting the pairs by key
equals Python's lexicographic tuple sort). -/
def uvPairs {α : Type} (polys : List (List Nat)) (uvLayer : List α) (dflt : α) :
    List (Nat × α) :=
  List.insertionSort (fun a b => a.1 ≤ b.1)
    (seenFilter [] (buildUVMap uvLayer dflt [] 0
      ((polys.map (fun p => p.take 3)).flatten)))

/-- The `Vertex_UV` buffer emitted by `add_vertex_UV`: the values of the
key-sorted collapsed map. -/
def add_vertex_UV_buffer {α : Type} (polys : List (List Nat)) (uvLayer : List α)
    (dflt : α) : List α :=
  (uvPairs polys uvLayer dflt).map (fun p => p.2)

/-- Embedding of `add_vertex_UV`: when a UV layer exists, collapse the
per-loop UVs to one per vertex and append the name; otherwise do
nothing. -/
def add_vertex_UV (mesh : BMesh) (doc : ExportDoc) : ExportDoc :=
  match mesh.uv_layers_active with
  | none => doc
  | some uvLayer =>
      { doc with
        vertex_UV := some (add_vertex_UV_buffer mesh.polygons uvLayer (0, 0))
        attributes := doc.attributes ++ ["Vertex_UV"] }

/-- Embedding of `add_is_metal`: when the mesh has an `is_metal`
attribute, store its integer values and append the name. -/
def add_is_metal (mesh : BMesh) (doc : ExportDoc) : ExportDoc :=
  match mesh.attr_is_metal with
  | none => doc
  | some vals =>
      { doc with
        is_metal := some vals
        attributes := doc.attributes ++ ["is_metal"] }

/-- Embedding of `add_is_glass`: when the mesh has an `is_glass`
attribute, store its integer values and append the name. -/
def add_is_glass (mesh : BMesh) (doc : ExportDoc) : ExportDoc :=
  match mesh.attr_is_glass with
  | none => doc
  | some vals =>
      { doc with
        is_glass := some vals
        attributes := doc.attributes ++ ["is_glass"] }

/-- Outcome of running the export operator: the reports issued (level,
message), the file written (path and document), if any, and the returned
status set. -/
structure ExportOutcome where
  reports : List (String × String)
  written : Option (String × ExportDoc)
  status : String
deriving DecidableEq, Repr

/-- The filepath after the extension fix-up at the top of
`ExportTinyGladeJSON.execute`. -/
def normPath (filepath : String) : String :=
  if filepath.toLower.endsWith ".json" then filepath else filepath ++ ".json"

/-- The document-population chain of `ExportTinyGladeJSON.execute`: the
add-functions run in the fixed call order Position, Normal, Color, UV,
is_metal, is_glass, then indices last, each guarded by its option. -/
def buildExportDoc (obj : BObject) (opts : ExportOptions) : ExportDoc :=
  let mesh := obj.data
  let d0 := ExportDoc.init
  let d1 := if opts.include_vertex_position then add_vertex_positions obj d0 else d0
  let d2 := if opts.include_vertex_normal then add_vertex_normals mesh d1 else d1
  let d3 := if opts.include_vertex_color then add_vertex_colors mesh d2 else d2
  let d4 := if opts.include_vertex_uv then add_vertex_UV mesh d3 else d3
  let d5 := if opts.include_is_metal then add_is_metal mesh d4 else d4
  let d6 := if opts.include_is_glass then add_is_glass mesh d5 else d5
  if opts.include_faces_indices then add_faces_indices mesh d6 else d6

/-- Embedding of `ExportTinyGladeJSON.execute`: fix the extension, report
the start message, refuse a missing or non-mesh context object with an
error report and a CANCELLED status before any file is written, otherwise
populate the document in call order and write it. -/
def exportExecute (ctxObj : Option BObject) (opts : ExportOptions)
    (filepath : String) : ExportOutcome :=
  let fp := normPath filepath
  let startReports := [("INFO", "Start Mesh Exportation")]
  match ctxObj with
  | none =>
      ⟨startReports ++ [("ERROR", "Selected object is not a mesh")], none, "CANCELLED"⟩
  | some obj =>
      if obj.type ≠ "MESH" then
        ⟨startReports ++ [("ERROR", "Selected object is not a mesh")], none, "CANCELLED"⟩
      else
        ⟨startReports ++ [("INFO", "Exported data to " ++ fp)],
         some (fp, buildExportDoc obj opts), "FINISHED"⟩

/-- C9: when the context object is `None` or not a mesh, the export
reports an error to the user, returns CANCELLED, and writes no file,
whatever the options, the filepath and the UV-collapsing routine. -/
theorem C9_non_mesh_export_cancelled
    (ctxObj : Option BObject) (opts : ExportOptions) (filepath : String)
    (h : ctxObj = none ∨ ∀ o, ctxObj = some o → o.type ≠ "MESH") :
    (exportExecute ctxObj opts filepath).status = "CANCELLED"
      ∧ ("ERROR", "Selected object is not a mesh")
          ∈ (exportExecute ctxObj opts filepath).reports
      ∧ (exportExecute ctxObj opts filepath).written = none := by
  rcases h with h | h
  · subst h; refine ⟨rfl, ?_, rfl⟩; simp [exportExecute]
  · cases ctxObj with
    | none => refine ⟨rfl, ?_, rfl⟩; simp [exportExecute]
    | some o =>
        have ho := h o rfl
        refine ⟨?_, ?_, ?_⟩ <;> simp [exportExecute, ho]

/-- Witness for C9 at a concrete non-mesh object. -/
theorem C9_witness :
    (exportExecute
        (some ⟨"LIGHT", ⟨(1, 0, 0, 0), (0, 1, 0, 0), (0, 0, 1, 0)⟩,
          ⟨[], [], none, none, [], none, none⟩⟩)
        ⟨true, false, false, false, false, false, true⟩ "a").status = "CANCELLED"
      ∧ ("ERROR", "Selected object is not a mesh")
          ∈ (exportExecute
              (some ⟨"LIGHT", ⟨(1, 0, 0, 0), (0, 1, 0, 0), (0, 0, 1, 0)⟩,
                ⟨[], [], none, none, [], none, none⟩⟩)
              ⟨true, false, false, false, false, false, true⟩ "a").reports
      ∧ (exportExecute
          (some ⟨"LIGHT", ⟨(1, 0, 0, 0), (0, 1, 0, 0), (0, 0, 1, 0)⟩,
            ⟨[], [], none, none, [], none, none⟩⟩)
          ⟨true, false, false, false, false, false, true⟩ "a").written = none :=
  C9_non_mesh_export_cancelled _ _ _ (Or.inr (by intro o ho; cases ho; decide))

@[simp]
theorem add_vertex_positions_indices (obj : BObject) (doc : ExportDoc) :
    (add_vertex_positions obj doc).indices = doc.indices := rfl

@[simp]
theorem add_vertex_normals_indices (mesh : BMesh) (doc : ExportDoc) :
    (add_vertex_normals mesh doc).indices = doc.indices := rfl

@[simp]
theorem add_vertex_colors_indices (mesh : BMesh) (doc : ExportDoc) :
    (add_vertex_colors mesh doc).indices = doc.indices := by
  cases hc : mesh.color_attributes_active <;> simp [add_vertex_colors, hc]

@[simp]
theorem add_vertex_UV_indices (mesh : BMesh) (doc : ExportDoc) :
    (add_vertex_UV mesh doc).indices = doc.indices := by
  cases hu : mesh.uv_layers_active <;> simp [add_vertex_UV, hu]

@[simp]
theorem add_is_metal_indices (mesh : BMesh) (doc : ExportDoc) :
    (add_is_metal mesh doc).indices = doc.indices := by
  cases hmv : mesh.attr_is_metal <;> simp [add_is_metal, hmv]

@[simp]
theorem add_is_glass_indices (mesh : BMesh) (doc : ExportDoc) :
    (add_is_glass mesh doc).indices = doc.indices := by
  cases hg : mesh.attr_is_glass <;> simp [add_is_glass, hg]

/-- The indices key of the populated document: the first-three-vertices
walk over the polygons when faces are included, `null` otherwise. -/
theorem buildExportDoc_indices (obj : BObject) (opts : ExportOptions) :
    (buildExportDoc obj opts).indices =
      if opts.include_faces_indices then
        some ((obj.data.polygons.map (fun p => p.take 3)).flatten)
      else none := by
  cases hf : opts.include_faces_indices <;>
    simp [buildExportDoc, add_faces_indices, hf, apply_ite ExportDoc.indices,
      ExportDoc.init]

/-- Length of the indices buffer of the written document (0 when no file
was written or the key holds `null`). -/
def exportIndicesLen (o : ExportOutcome) : Nat :=
  match o.written with
  | some pd => (pd.2.indices.getD []).length
  | none => 0

/-- When every polygon has at least three vertices, the first-three walk
emits exactly three indices per polygon. -/
theorem flatten_take3_length (polys : List (List Nat))
    (h3 : ∀ p ∈ polys, 3 ≤ p.length) :
    ((polys.map (fun p => p.take 3)).flatten).length = 3 * polys.length := by
  induction polys with
  | nil => simp
  | cons p rest ih =>
      have hp : 3 ≤ p.length := h3 p (List.mem_cons_self p rest)
      have hr := ih (fun q hq => h3 q (List.mem_cons_of_mem p hq))
      simp only [List.map_cons, List.flatten_cons, List.length_append, hr,
        List.length_take, List.length_cons]
      omega

/-- On a mesh-typed object, the export writes a file. -/
theorem export_written_of_mesh (obj : BObject) (opts : ExportOptions)
    (fp : String) (hm : obj.type = "MESH") :
    exportExecute (some obj) opts fp =
      ⟨[("INFO", "Start Mesh Exportation"),
        ("INFO", "Exported data to " ++ normPath fp)],
       some (normPath fp, buildExportDoc obj opts), "FINISHED"⟩ := by
  simp [exportExecute, hm]

/-- C6: in every document produced by an export invocation with face
indices included, on a mesh whose polygons all have at least three
vertices (every Blender polygon does), a file is written and the length of
its indices buffer is a multiple of 3: each polygon contributes exactly
one index triple. -/
theorem C6_indices_length_multiple_of_three (obj : BObject)
    (opts : ExportOptions) (fp : String) (hm : obj.type = "MESH")
    (hf : opts.include_faces_indices = true)
    (h3 : ∀ p ∈ obj.data.polygons, 3 ≤ p.length) :
    (exportExecute (some obj) opts fp).written.isSome = true
      ∧ exportIndicesLen (exportExecute (some obj) opts fp) % 3 = 0 := by
  rw [export_written_of_mesh obj opts fp hm]
  refine ⟨rfl, ?_⟩
  simp only [exportIndicesLen, buildExportDoc_indices, hf, if_true,
    Option.getD_some, flatten_take3_length obj.data.polygons h3]
  omega

/-- Witness for C6: a quad (whose fourth vertex the exporter drops) and a
triangle yield a six-entry indices buffer. -/
theorem C6_witness :
    (exportExecute (some ⟨"MESH", ⟨(1, 0, 0, 0), (0, 1, 0, 0), (0, 0, 1, 0)⟩,
        ⟨[⟨0, 0, 0⟩, ⟨1, 0, 0⟩, ⟨0, 1, 0⟩, ⟨0, 0, 1⟩, ⟨1, 1, 0⟩],
         [], none, none, [[0, 1, 2, 3], [0, 2, 4]], none, none⟩⟩)
      ⟨true, false, false, false, false, false, true⟩ "m").written.isSome = true
    ∧ exportIndicesLen (exportExecute
        (some ⟨"MESH", ⟨(1, 0, 0, 0), (0, 1, 0, 0), (0, 0, 1, 0)⟩,
          ⟨[⟨0, 0, 0⟩, ⟨1, 0, 0⟩, ⟨0, 1, 0⟩, ⟨0, 0, 1⟩, ⟨1, 1, 0⟩],
           [], none, none, [[0, 1, 2, 3], [0, 2, 4]], none, none⟩⟩)
        ⟨true, false, false, false, false, false, true⟩ "m") % 3 = 0 :=
  C6_indices_length_multiple_of_three _ _ _ rfl rfl (by decide)

theorem add_vertex_colors_eq (mesh : BMesh) (doc : ExportDoc) :
    add_vertex_colors mesh doc =
      { doc with
        vertex_Color := mesh.color_attributes_active.elim doc.vertex_Color
          (fun cols => some (cols.map (fun c => (c.1, c.2.1, c.2.2.1))))
        attributes := doc.attributes
          ++ (if mesh.color_attributes_active.isSome then ["Vertex_Color"] else []) } := by
  cases hc : mesh.color_attributes_active <;> simp [add_vertex_colors, hc]

theorem add_vertex_UV_eq (mesh : BMesh) (doc : ExportDoc) :
    add_vertex_UV mesh doc =
      { doc with
        vertex_UV := mesh.uv_layers_active.elim doc.vertex_UV
          (fun l => some (add_vertex_UV_buffer mesh.polygons l (0, 0)))
        attributes := doc.attributes
          ++ (if mesh.uv_layers_active.isSome then ["Vertex_UV"] else []) } := by
  cases hu : mesh.uv_layers_active <;> simp [add_vertex_UV, hu]

theorem add_is_metal_eq (mesh : BMesh) (doc : ExportDoc) :
    add_is_metal mesh doc =
      { doc with
        is_metal := mesh.attr_is_metal.elim doc.is_metal some
        attributes := doc.attributes
          ++ (if mesh.attr_is_metal.isSome then ["is_metal"] else []) } := by
  cases hmv : mesh.attr_is_metal <;> simp [add_is_metal, hmv]

theorem add_is_glass_eq (mesh : BMesh) (doc : ExportDoc) :
    add_is_glass mesh doc =
      { doc with
        is_glass := mesh.attr_is_glass.elim doc.is_glass some
        attributes := doc.attributes
          ++ (if mesh.attr_is_glass.isSome then ["is_glass"] else []) } := by
  cases hg : mesh.attr_is_glass <;> simp [add_is_glass, hg]

/-- The position buffer of the populated document. -/
theorem buildExportDoc_vertex_Position (obj : BObject) (opts : ExportOptions) :
    (buildExportDoc obj opts).vertex_Position =
      if opts.include_vertex_position = true then
        some ((obj.data.vertices.map (applyMat obj.matrix_world)).map
          flip_vector_orientation)
      else none := by
  cases hp : opts.include_vertex_position <;>
    simp [buildExportDoc, add_vertex_positions, add_vertex_normals,
      add_vertex_colors_eq, add_vertex_UV_eq, add_is_metal_eq, add_is_glass_eq,
      add_faces_indices, ExportDoc.init, hp,
      apply_ite ExportDoc.vertex_Position]

/-- The normal buffer of the populated document. -/
theorem buildExportDoc_vertex_Normal (obj : BObject) (opts : ExportOptions) :
    (buildExportDoc obj opts).vertex_Normal =
      if opts.include_vertex_normal = true then
        some (obj.data.normals.map flip_vector_orientation)
      else none := by
  cases hn : opts.include_vertex_normal <;>
    simp [buildExportDoc, add_vertex_positions, add_vertex_normals,
      add_vertex_colors_eq, add_vertex_UV_eq, add_is_metal_eq, add_is_glass_eq,
      add_faces_indices, ExportDoc.init, hn,
      apply_ite ExportDoc.vertex_Normal]

/-- The color buffer of the populated document. -/
theorem buildExportDoc_vertex_Color (obj : BObject) (opts : ExportOptions) :
    (buildExportDoc obj opts).vertex_Color =
      if opts.include_vertex_color = true then
        obj.data.color_attributes_active.map
          (fun cols => cols.map (fun c => (c.1, c.2.1, c.2.2.1)))
      else none := by
  cases hc : opts.include_vertex_color <;>
    cases ha : obj.data.color_attributes_active <;>
    simp [buildExportDoc, add_vertex_positions, add_vertex_normals,
      add_vertex_colors_eq, add_vertex_UV_eq, add_is_metal_eq, add_is_glass_eq,
      add_faces_indices, ExportDoc.init, hc, ha,
      apply_ite ExportDoc.vertex_Color]

/-- The UV buffer of the populated document. -/
theorem buildExportDoc_vertex_UV (obj : BObject) (opts : ExportOptions) :
    (buildExportDoc obj opts).vertex_UV =
      if opts.include_vertex_uv = true then
        obj.data.uv_layers_active.map
          (fun l => add_vertex_UV_buffer obj.data.polygons l (0, 0))
      else none := by
  cases hu : opts.include_vertex_uv <;>
    cases ha : obj.data.uv_layers_active <;>
    simp [buildExportDoc, add_vertex_positions, add_vertex_normals,
      add_vertex_colors_eq, add_vertex_UV_eq, add_is_metal_eq, add_is_glass_eq,
      add_faces_indices, ExportDoc.init, hu, ha,
      apply_ite ExportDoc.vertex_UV]

/-- The `is_metal` buffer of the populated document. -/
theorem buildExportDoc_is_metal (obj : BObject) (opts : ExportOptions) :
    (buildExportDoc obj opts).is_metal =
      if opts.include_is_metal = true then obj.data.attr_is_metal else none := by
  cases hm2 : opts.include_is_metal <;>
    cases ha : obj.data.attr_is_metal <;>
    simp [buildExportDoc, add_vertex_positions, add_vertex_normals,
      add_vertex_colors_eq, add_vertex_UV_eq, add_is_metal_eq, add_is_glass_eq,
      add_faces_indices, ExportDoc.init, hm2, ha,
      apply_ite ExportDoc.is_metal]

/-- The `is_glass` buffer of the populated document. -/
theorem buildExportDoc_is_glass (obj : BObject) (opts : ExportOptions) :
    (buildExportDoc obj opts).is_glass =
      if opts.include_is_glass = true then obj.data.attr_is_glass else none := by
  cases hg2 : opts.include_is_glass <;>
    cases ha : obj.data.attr_is_glass <;>
    simp [buildExportDoc, add_vertex_positions, add_vertex_normals,
      add_vertex_colors_eq, add_vertex_UV_eq, add_is_metal_eq, add_is_glass_eq,
      add_faces_indices, ExportDoc.init, hg2, ha,
      apply_ite ExportDoc.is_glass]

/-- The attributes list of the populated document: one conditional
singleton per attribute, concatenated in the fixed call order. -/
theorem buildExportDoc_attributes (obj : BObject) (opts : ExportOptions) :
    (buildExportDoc obj opts).attributes =
      (if opts.include_vertex_position = true then ["Vertex_Position"] else [])
      ++ ((if opts.include_vertex_normal = true then ["Vertex_Normal"] else [])
      ++ ((if (opts.include_vertex_color
              && obj.data.color_attributes_active.isSome) = true then
            ["Vertex_Color"] else [])
      ++ ((if (opts.include_vertex_uv
              && obj.data.uv_layers_active.isSome) = true then
            ["Vertex_UV"] else [])
      ++ ((if (opts.include_is_metal
              && obj.data.attr_is_metal.isSome) = true then
            ["is_metal"] else [])
      ++ (if (opts.include_is_glass
              && obj.data.attr_is_glass.isSome) = true then
            ["is_glass"] else []))))) := by
  rcases opts with ⟨p, n, c, u, m, g, f⟩
  cases p <;> cases n <;> cases c <;> cases u <;> cases m <;> cases g <;>
    simp [buildExportDoc, add_vertex_positions, add_vertex_normals,
      add_vertex_colors_eq, add_vertex_UV_eq, add_is_metal_eq, add_is_glass_eq,
      add_faces_indices, ExportDoc.init, apply_ite ExportDoc.attributes]

theorem mem_optcat {α : Type} (x y : α) (c : Prop) [Decidable c] (l : List α) :
    (x ∈ (if c then [y] else []) ++ l) ↔ ((c ∧ x = y) ∨ x ∈ l) := by
  by_cases h : c <;> simp [h]

theorem sub_step {α : Type} (b : Prop) [Decidable b] (x : α) (l L : List α)
    (h : l.Sublist L) : ((if b then [x] else []) ++ l).Sublist (x :: L) := by
  by_cases hb : b <;> simp [hb]
  · exact h
  · exact List.Sublist.cons x h

theorem isSome_ite {α : Type} (c : Prop) [Decidable c] (x : Option α) :
    ((if c then x else none).isSome = true) ↔ (c ∧ x.isSome = true) := by
  by_cases h : c <;> simp [h]

/-- C8: for every export invocation on a mesh object, the written
document's attributes list is an order-preserving subsequence of the fixed
evaluation order Vertex_Position, Vertex_Normal, Vertex_Color, Vertex_UV,
is_metal, is_glass; a name appears in the list exactly when the
corresponding key was written into the document (absent attributes are
omitted entirely); and indices, handled last, never appears in the
attributes list (its key is always present in the document, `null` when
faces are not requested). -/
theorem C8_attributes_exact_order (obj : BObject) (opts : ExportOptions)
    (fp : String) (hm : obj.type = "MESH") :
    ∃ doc, (exportExecute (some obj) opts fp).written = some (normPath fp, doc)
      ∧ doc.attributes.Sublist
          ["Vertex_Position", "Vertex_Normal", "Vertex_Color", "Vertex_UV",
           "is_metal", "is_glass"]
      ∧ (("Vertex_Position" ∈ doc.attributes) ↔ doc.vertex_Position.isSome = true)
      ∧ (("Vertex_Normal" ∈ doc.attributes) ↔ doc.vertex_Normal.isSome = true)
      ∧ (("Vertex_Color" ∈ doc.attributes) ↔ doc.vertex_Color.isSome = true)
      ∧ (("Vertex_UV" ∈ doc.attributes) ↔ doc.vertex_UV.isSome = true)
      ∧ (("is_metal" ∈ doc.attributes) ↔ doc.is_metal.isSome = true)
      ∧ (("is_glass" ∈ doc.attributes) ↔ doc.is_glass.isSome = true)
      ∧ "indices" ∉ doc.attributes := by
  refine ⟨buildExportDoc obj opts,
    by rw [export_written_of_mesh obj opts fp hm], ?_, ?_, ?_, ?_, ?_, ?_, ?_, ?_⟩
  · rw [buildExportDoc_attributes]
    refine sub_step _ _ _ _ (sub_step _ _ _ _ (sub_step _ _ _ _
      (sub_step _ _ _ _ (sub_step _ _ _ _ ?_))))
    by_cases h : ((opts.include_is_glass && obj.data.attr_is_glass.isSome) = true) <;>
      simp [h]
  · rw [buildExportDoc_attributes, buildExportDoc_vertex_Position]
    simp [mem_optcat, isSome_ite, Bool.and_eq_true]
  · rw [buildExportDoc_attributes, buildExportDoc_vertex_Normal]
    simp [mem_optcat, isSome_ite, Bool.and_eq_true]
  · rw [buildExportDoc_attributes, buildExportDoc_vertex_Color]
    simp [mem_optcat, isSome_ite, Bool.and_eq_true]
  · rw [buildExportDoc_attributes, buildExportDoc_vertex_UV]
    simp [mem_optcat, isSome_ite, Bool.and_eq_true]
  · rw [buildExportDoc_attributes, buildExportDoc_is_metal]
    simp [mem_optcat, isSome_ite, Bool.and_eq_true]
  · rw [buildExportDoc_attributes, buildExportDoc_is_glass]
    simp [mem_optcat, isSome_ite, Bool.and_eq_true]
  · rw [buildExportDoc_attributes]
    simp [mem_optcat]

/-- A small concrete mesh object used by the export witnesses: a triangle
with a UV layer, an `is_metal` attribute, and no color attribute. -/
def sampleObj : BObject :=
  ⟨"MESH", ⟨(1, 0, 0, 0), (0, 1, 0, 0), (0, 0, 1, 0)⟩,
    ⟨[⟨0, 0, 0⟩, ⟨1, 0, 0⟩, ⟨0, 1, 0⟩],
     [⟨0, 0, 1⟩, ⟨0, 0, 1⟩, ⟨0, 0, 1⟩],
     none,
     some [(0, 0), ((1 : Rat), 0), (0, (1 : Rat))],
     [[0, 1, 2]],
     some [1, 0, 1],
     none⟩⟩

/-- Witness for C8 at a concrete invocation: positions, UV, color and
metal requested; color and glass data absent. -/
theorem C8_witness :
    ∃ doc, (exportExecute (some sampleObj)
        ⟨true, false, true, true, true, true, true⟩ "out").written
          = some (normPath "out", doc)
      ∧ doc.attributes.Sublist
          ["Vertex_Position", "Vertex_Normal", "Vertex_Color", "Vertex_UV",
           "is_metal", "is_glass"]
      ∧ (("Vertex_Position" ∈ doc.attributes) ↔ doc.vertex_Position.isSome = true)
      ∧ (("Vertex_Normal" ∈ doc.attributes) ↔ doc.vertex_Normal.isSome = true)
      ∧ (("Vertex_Color" ∈ doc.attributes) ↔ doc.vertex_Color.isSome = true)
      ∧ (("Vertex_UV" ∈ doc.attributes) ↔ doc.vertex_UV.isSome = true)
      ∧ (("is_metal" ∈ doc.attributes) ↔ doc.is_metal.isSome = true)
      ∧ (("is_glass" ∈ doc.attributes) ↔ doc.is_glass.isSome = true)
      ∧ "indices" ∉ doc.attributes :=
  C8_attributes_exact_order sampleObj ⟨true, false, true, true, true, true, true⟩
    "out" rfl

/-- Re-parse of a written export document as an import-side document: each
present key becomes an object with a `buffer` sub-key, the always-present
`indices` key becomes `null` or an object, and the export never writes
`prim_center` or `appear_pos`. -/
def exportDocToTGDoc (doc : ExportDoc) : TGDoc :=
  { attributes := some doc.attributes
    vertex_Position := doc.vertex_Position.map (fun b => ⟨some b⟩)
    vertex_Normal := doc.vertex_Normal.map (fun b => ⟨some b⟩)
    vertex_Color := doc.vertex_Color.map (fun b => ⟨some b⟩)
    vertex_UV := doc.vertex_UV.map (fun b => ⟨some b⟩)
    indices := match doc.indices with
      | none => JIndices.null
      | some l => JIndices.obj ⟨some l⟩
    prim_center := none
    appear_pos := none
    is_metal := doc.is_metal.map (fun b => ⟨some b⟩)
    is_glass := doc.is_glass.map (fun b => ⟨some b⟩) }

/-- The export options of the C7 scenario: positions, both material flags
and faces, nothing else. -/
def flagExportOpts : ExportOptions := ⟨true, false, false, false, true, true, true⟩

/-- C7: exporting a mesh carrying per-vertex integer `is_metal` and
`is_glass` attributes (one value per vertex, at least one vertex) with the
flags included, then importing the produced document, reproduces both
per-vertex attributes with the same value at every vertex index in the
same vertex order. -/
theorem C7_metal_glass_round_trip (obj : BObject) (fp : String)
    (hm : obj.type = "MESH") (mv gv : List Int)
    (hmv : obj.data.attr_is_metal = some mv)
    (hgv : obj.data.attr_is_glass = some gv)
    (hlm : mv.length = obj.data.vertices.length)
    (hlg : gv.length = obj.data.vertices.length)
    (hne : obj.data.vertices ≠ []) :
    ∃ doc, (exportExecute (some obj) flagExportOpts fp).written
        = some (normPath fp, doc)
      ∧ ∃ s, importExecute (exportDocToTGDoc doc) = ImportResult.finished s
          ∧ s.metalAttr = some mv ∧ s.glassAttr = some gv := by
  have hdoc : exportDocToTGDoc (buildExportDoc obj flagExportOpts) =
      { attributes := some (buildExportDoc obj flagExportOpts).attributes
        vertex_Position := some ⟨some ((obj.data.vertices.map
          (applyMat obj.matrix_world)).map flip_vector_orientation)⟩
        vertex_Normal := none
        vertex_Color := none
        vertex_UV := none
        indices := JIndices.obj
          ⟨some ((obj.data.polygons.map (fun p => p.take 3)).flatten)⟩
        prim_center := none
        appear_pos := none
        is_metal := some ⟨some mv⟩
        is_glass := some ⟨some gv⟩ } := by
    simp [exportDocToTGDoc, buildExportDoc_vertex_Position,
      buildExportDoc_vertex_Normal, buildExportDoc_vertex_Color,
      buildExportDoc_vertex_UV, buildExportDoc_is_metal,
      buildExportDoc_is_glass, buildExportDoc_indices, flagExportOpts,
      hmv, hgv]
  have hmvne : mv ≠ [] := by
    intro h0
    apply hne
    rw [h0] at hlm
    exact (List.eq_nil_of_length_eq_zero hlm.symm)
  have hgvne : gv ≠ [] := by
    intro h0
    apply hne
    rw [h0] at hlg
    exact (List.eq_nil_of_length_eq_zero hlg.symm)
  refine ⟨buildExportDoc obj flagExportOpts,
    by rw [export_written_of_mesh obj flagExportOpts fp hm], ?_⟩
  rw [hdoc]
  refine ⟨{ createdMeshes := ["TinyGladeMesh"]
            vertex_positions := ((obj.data.vertices.map
              (applyMat obj.matrix_world)).map flip_vector_orientation).map
              flip_vector_orientation
            vertex_normals := []
            faces := chunk3 ((obj.data.polygons.map (fun p => p.take 3)).flatten)
            prim_center := []
            appear_pos := []
            colorAttr := none
            uvLoops := none
            metalAttr := some mv
            glassAttr := some gv }, ?_, by simp, by simp⟩
  simp [importExecute, decode, decodeWith, buildScene, getBuffer,
    hmvne, hgvne, List.length_map, hlm, hlg]

/-- Witness for C7 at a concrete three-vertex mesh with `is_metal` 1 at
vertices 0 and 2 and `is_glass` 0 everywhere. -/
theorem C7_witness :
    ∃ doc, (exportExecute (some ⟨"MESH",
          ⟨(1, 0, 0, 0), (0, 1, 0, 0), (0, 0, 1, 0)⟩,
          ⟨[⟨0, 0, 0⟩, ⟨1, 0, 0⟩, ⟨0, 1, 0⟩], [], none, none, [[0, 1, 2]],
           some [1, 0, 1], some [0, 0, 0]⟩⟩) flagExportOpts "rt").written
        = some (normPath "rt", doc)
      ∧ ∃ s, importExecute (exportDocToTGDoc doc) = ImportResult.finished s
          ∧ s.metalAttr = some [1, 0, 1] ∧ s.glassAttr = some [0, 0, 0] :=
  C7_metal_glass_round_trip _ "rt" rfl [1, 0, 1] [0, 0, 0] rfl rfl rfl rfl
    (by decide)

/-- Snapshot of the context object as read by the toggle operators: its
`type`, its `mode`, the selection state of each bmesh vertex in index
order, and the two optional integer point attributes. -/
structure ToggleObj where
  type : String
  mode : String
  selected : List Bool
  attr_is_metal : Option (List Int)
  attr_is_glass : Option (List Int)
deriving DecidableEq, Repr

/-- Result of a toggle operator: an error report with CANCELLED, or the
attribute values after the loop. -/
inductive ToggleResult where
  | cancelled (msg : String) : ToggleResult
  | finished (vals : List Int) : ToggleResult
deriving DecidableEq, Repr

/-- Embedding of the toggle loop
`for vert in bm.verts: if vert.select: ...`: walk the vertices from index
`k` on, and flip the value at each selected index (to 1 when it is 0, to 0
otherwise), in place. -/
def toggleFrom (vals : List Int) (k : Nat) : List Bool → List Int
  | [] => vals
  | sel :: rest =>
      toggleFrom
        (if sel then vals.set k (if vals.getD k 0 = 0 then 1 else 0) else vals)
        (k + 1) rest

/-- The `is_metal` values before the toggle loop: the existing attribute,
or the freshly created zero-filled one. -/
def metalInit (obj : ToggleObj) : List Int :=
  obj.attr_is_metal.getD (List.replicate obj.selected.length 0)

/-- The `is_glass` values before the toggle loop. -/
def glassInit (obj : ToggleObj) : List Int :=
  obj.attr_is_glass.getD (List.replicate obj.selected.length 0)

/-- Embedding of `ToggleMetalAttribute.execute`: refuse a missing or
non-mesh object, refuse an object not in edit mode, otherwise get or
create the `is_metal` attribute and toggle it on selected vertices. -/
def toggleMetalExecute (ctxObj : Option ToggleObj) : ToggleResult :=
  match ctxObj with
  | none => ToggleResult.cancelled "Selected object is not a mesh"
  | some obj =>
      if obj.type ≠ "MESH" then
        ToggleResult.cancelled "Selected object is not a mesh"
      else if obj.mode ≠ "EDIT" then
        ToggleResult.cancelled "Must be in edit mode"
      else
        ToggleResult.finished (toggleFrom (metalInit obj) 0 obj.selected)

/-- Embedding of `ToggleGlassAttribute.execute`: identical to the metal
operator, against the `is_glass` attribute. -/
def toggleGlassExecute (ctxObj : Option ToggleObj) : ToggleResult :=
  match ctxObj with
  | none => ToggleResult.cancelled "Selected object is not a mesh"
  | some obj =>
      if obj.type ≠ "MESH" then
        ToggleResult.cancelled "Selected object is not a mesh"
      else if obj.mode ≠ "EDIT" then
        ToggleResult.cancelled "Must be in edit mode"
      else
        ToggleResult.finished (toggleFrom (glassInit obj) 0 obj.selected)

/-- Positions below the loop counter are never touched by the rest of the
toggle loop. -/
theorem toggleFrom_getD_lt (sels : List Bool) :
    ∀ (vals : List Int) (k j : Nat), j < k →
      (toggleFrom vals k sels).getD j 0 = vals.getD j 0 := by
  induction sels with
  | nil => intro vals k j hj; rfl
  | cons sel rest ih =>
      intro vals k j hj
      rw [toggleFrom, ih _ (k + 1) j (Nat.lt_succ_of_lt hj)]
      cases sel with
      | false => rfl
      | true =>
          have hne : k ≠ j := Nat.ne_of_gt hj
          simp [List.getD_eq_getElem?_getD, List.getElem?_set_ne hne]

/-- Pointwise description of the toggle loop: position `k + i` ends at the
flipped value when vertex `i` of the remaining walk is selected, and is
left unchanged otherwise. -/
theorem toggleFrom_getD (sels : List Bool) :
    ∀ (vals : List Int) (k i : Nat), k + sels.length ≤ vals.length →
      (toggleFrom vals k sels).getD (k + i) 0 =
        if sels.getD i false then
          (if vals.getD (k + i) 0 = 0 then 1 else 0)
        else vals.getD (k + i) 0 := by
  induction sels with
  | nil => intro vals k i _; simp [toggleFrom]
  | cons sel rest ih =>
      intro vals k i hlen
      rw [toggleFrom]
      cases i with
      | zero =>
          have hk : k < vals.length := by simp at hlen; omega
          rw [toggleFrom_getD_lt rest _ (k + 1) (k + 0) (by omega)]
          cases sel with
          | false => simp
          | true =>
              simp [List.getD_eq_getElem?_getD, Nat.add_zero,
                List.getElem?_set_self hk]
      | succ j =>
          have hlen2 : (k + 1) + rest.length ≤
              (if sel then vals.set k (if vals.getD k 0 = 0 then 1 else 0)
               else vals).length := by
            cases sel <;> simp at hlen ⊢ <;> omega
          have hstep := ih _ (k + 1) j hlen2
          have hkj : k + (j + 1) = (k + 1) + j := by omega
          rw [hkj, hstep]
          have hpres : (if sel then
              vals.set k (if vals.getD k 0 = 0 then 1 else 0)
              else vals).getD ((k + 1) + j) 0 = vals.getD ((k + 1) + j) 0 := by
            cases sel with
            | false => rfl
            | true =>
                have hne : k ≠ (k + 1) + j := by omega
                simp [List.getD_eq_getElem?_getD, List.getElem?_set_ne hne]
          rw [hpres]
          rfl

/-- C10: when the toggle operators succeed in edit mode on a mesh whose
flag attribute (existing, or freshly created zero-filled) has one value
per vertex, each selected vertex's flag becomes 1 if it was 0 and 0
otherwise, and the flag of every unselected vertex is left unchanged; the
same holds for the metal and the glass operator. -/
theorem C10_toggle_only_selected (obj : ToggleObj)
    (hT : obj.type = "MESH") (hE : obj.mode = "EDIT")
    (hlm : (metalInit obj).length = obj.selected.length)
    (hlg : (glassInit obj).length = obj.selected.length) (i : Nat) :
    ∃ mOut, toggleMetalExecute (some obj) = ToggleResult.finished mOut
      ∧ mOut.getD i 0 =
          (if obj.selected.getD i false then
            (if (metalInit obj).getD i 0 = 0 then 1 else 0)
          else (metalInit obj).getD i 0)
      ∧ ∃ gOut, toggleGlassExecute (some obj) = ToggleResult.finished gOut
          ∧ gOut.getD i 0 =
              (if obj.selected.getD i false then
                (if (glassInit obj).getD i 0 = 0 then 1 else 0)
              else (glassInit obj).getD i 0) := by
  have hmain := toggleFrom_getD obj.selected (metalInit obj) 0 i (by omega)
  have hmain2 := toggleFrom_getD obj.selected (glassInit obj) 0 i (by omega)
  rw [Nat.zero_add] at hmain hmain2
  exact ⟨toggleFrom (metalInit obj) 0 obj.selected,
    by simp [toggleMetalExecute, hT, hE], hmain,
    toggleFrom (glassInit obj) 0 obj.selected,
    by simp [toggleGlassExecute, hT, hE], hmain2⟩

/-- Witness for C10: three vertices, the first and third selected, metal
values 0, 1, 5 and no glass attribute. -/
theorem C10_witness :
    ∃ mOut, toggleMetalExecute (some ⟨"MESH", "EDIT", [true, false, true],
        some [0, 1, 5], none⟩) = ToggleResult.finished mOut
      ∧ mOut.getD 2 0 =
          (if ([true, false, true] : List Bool).getD 2 false then
            (if (metalInit ⟨"MESH", "EDIT", [true, false, true],
                some [0, 1, 5], none⟩).getD 2 0 = 0 then 1 else 0)
          else (metalInit ⟨"MESH", "EDIT", [true, false, true],
                some [0, 1, 5], none⟩).getD 2 0)
      ∧ ∃ gOut, toggleGlassExecute (some ⟨"MESH", "EDIT", [true, false, true],
            some [0, 1, 5], none⟩) = ToggleResult.finished gOut
          ∧ gOut.getD 2 0 =
              (if ([true, false, true] : List Bool).getD 2 false then
                (if (glassInit ⟨"MESH", "EDIT", [true, false, true],
                    some [0, 1, 5], none⟩).getD 2 0 = 0 then 1 else 0)
              else (glassInit ⟨"MESH", "EDIT", [true, false, true],
                    some [0, 1, 5], none⟩).getD 2 0) :=
  C10_toggle_only_selected ⟨"MESH", "EDIT", [true, false, true],
    some [0, 1, 5], none⟩ rfl rfl (by decide) (by decide) 2

/-- Zero test of the corner-to-vertex color collapse in
`pre_export_pipeline` (`src/utils.py`):
`all(vertex_color.data[v_idx].color[i] == 0.0 for i in range(4))`. -/
def isZeroColor (c : Rat × Rat × Rat × Rat) : Bool :=
  c.1 == 0 && c.2.1 == 0 && c.2.2.1 == 0 && c.2.2.2 == 0

/-- Embedding of the corner-color loop of `pre_export_pipeline`: walk the
loops in order (each given as its vertex index paired with its corner
color) and write the corner color into the per-vertex slot only while the
stored value is still all-zero. -/
def collapseColors (state : List (Rat × Rat × Rat × Rat)) :
    List (Nat × (Rat × Rat × Rat × Rat)) → List (Rat × Rat × Rat × Rat)
  | [] => state
  | (v, c) :: rest =>
      collapseColors
        (if isZeroColor (state.getD v (0, 0, 0, 0)) then state.set v c else state)
        rest

/-- Modelled from the spec: the first-seen-wins walk the spec describes
for `add_vertex_UV` — record a vertex's value only when the vertex has not
been recorded yet. -/
def firstSeenWalk {α : Type} (uvLayer : List α) (dflt : α)
    (m : List (Nat × α)) (i : Nat) : List Nat → List (Nat × α)
  | [] => m
  | idx :: rest =>
      firstSeenWalk uvLayer dflt
        (if m.any (fun q => q.1 == idx) then m else m ++ [(idx, uvLayer.getD i dflt)])
        (i + 1) rest

/-- Modelled from the spec: the per-vertex UV buffer the spec claims the
export emits — the first corner encountered for each vertex in the
polygon-then-corner walk, one value per seen vertex in ascending index
order. -/
def firstSeenUVBuffer {α : Type} (polys : List (List Nat)) (uvLayer : List α)
    (dflt : α) : List α :=
  let faces := (polys.map (fun p => p.take 3)).flatten
  (List.insertionSort (fun a b => a.1 ≤ b.1)
    (firstSeenWalk uvLayer dflt [] 0 faces)).map (fun p => p.2)

/-- Modelled from the spec: the per-vertex color the spec claims the
collapser records — the color of the first corner referencing the
vertex. -/
def firstSeenColorAt (loops : List (Nat × (Rat × Rat × Rat × Rat))) (v : Nat)
    (init : Rat × Rat × Rat × Rat) : Rat × Rat × Rat × Rat :=
  ((loops.find? (fun p => p.1 == v)).map (fun p => p.2)).getD init

/-- C2 counterexample.  UV side: two triangles sharing vertex 0 (corners 0
and 3 carry different UVs); the dict comprehension of `add_vertex_UV`
overwrites on duplicate keys, so the emitted value for vertex 0 is the one
of corner 3, not corner 0, and the buffer differs from the first-seen
buffer the claim describes.  Color side: a vertex whose first corner color
is all-zero ends with the color of its second corner, not the first, since
`pre_export_pipeline` re-writes any slot that is still all-zero. -/
theorem C2_counterexample :
    add_vertex_UV_buffer [[0, 1, 2], [0, 2, 3]] [1, 2, 3, 9, 4, 5] 0
        ≠ firstSeenUVBuffer [[0, 1, 2], [0, 2, 3]] [1, 2, 3, 9, 4, 5] 0
      ∧ (collapseColors [(0, 0, 0, 0)]
            [(0, (0, 0, 0, 0)), (0, (1, 0, 0, 1))]).getD 0 (0, 0, 0, 0)
          ≠ firstSeenColorAt [(0, (0, 0, 0, 0)), (0, (1, 0, 0, 1))] 0
              (0, 0, 0, 0) := by
  constructor
  · decide
  · decide

theorem dinsert_keys {α : Type} (m : List (Nat × α)) (k : Nat) (v : α)
    (hk : (m.any (fun p => p.1 == k)) = true) :
    (dinsert m k v).map Prod.fst = m.map Prod.fst := by
  unfold dinsert
  rw [if_pos hk, List.map_map]
  refine List.map_congr_left ?_
  intro p hp
  by_cases hpk : p.1 = k
  · simp [hpk]
  · simp [hpk]

theorem dinsert_keys_nodup {α : Type} (m : List (Nat × α)) (k : Nat) (v : α)
    (h : (m.map Prod.fst).Nodup) : ((dinsert m k v).map Prod.fst).Nodup := by
  by_cases hk : (m.any (fun p => p.1 == k)) = true
  · rw [dinsert_keys m k v hk]; exact h
  · unfold dinsert
    rw [if_neg hk, List.map_append]
    have hk2 : ∀ x : α, (k, x) ∉ m := by simpa using hk
    have hnotin : ∀ p ∈ m, p.1 ≠ k := by
      intro p hp hpk
      apply hk2 p.2
      rw [← hpk]
      simpa using hp
    refine List.Nodup.append h (by simp) ?_
    intro x hx hx2
    simp at hx2
    rcases List.mem_map.1 hx with ⟨p, hp, hpx⟩
    exact hnotin p hp (by rw [hpx, hx2])

theorem mem_dinsert {α : Type} (m : List (Nat × α)) (k : Nat) (v : α)
    (a : Nat) (b : α) :
    ((a, b) ∈ dinsert m k v) ↔ ((a = k ∧ b = v) ∨ (a ≠ k ∧ (a, b) ∈ m)) := by
  unfold dinsert
  by_cases hk : (m.any (fun p => p.1 == k)) = true
  · rw [if_pos hk]
    simp only [List.mem_map]
    constructor
    · rintro ⟨p, hp, hfp⟩
      by_cases hpk : p.1 = k
      · rw [if_pos (by simpa using hpk)] at hfp
        exact Or.inl ⟨(Prod.mk.injEq .. ▸ hfp).1.symm, (Prod.mk.injEq .. ▸ hfp).2.symm⟩
      · rw [if_neg (by simpa using hpk)] at hfp
        subst hfp
        exact Or.inr ⟨hpk, hp⟩
    · rintro (⟨ha, hb⟩ | ⟨hne, hmem⟩)
      · subst ha; subst hb
        rcases List.any_eq_true.1 hk with ⟨p, hp, hpk⟩
        exact ⟨p, hp, by rw [if_pos hpk]⟩
      · exact ⟨(a, b), hmem, by rw [if_neg (by simpa using hne)]⟩
  · rw [if_neg hk]
    have hk2 : ∀ x : α, (k, x) ∉ m := by simpa using hk
    have hnotin : ∀ p ∈ m, p.1 ≠ k := by
      intro p hp hpk
      apply hk2 p.2
      rw [← hpk]
      simpa using hp
    simp only [List.mem_append, List.mem_singleton]
    constructor
    · rintro (hmem | heq)
      · exact Or.inr ⟨fun ha => hnotin (a, b) hmem ha, hmem⟩
      · exact Or.inl ⟨(Prod.mk.injEq .. ▸ heq).1, (Prod.mk.injEq .. ▸ heq).2⟩
    · rintro (⟨ha, hb⟩ | ⟨hne, hmem⟩)
      · subst ha; subst hb; exact Or.inr rfl
      · exact Or.inl hmem

/-- The uv-layer slot used for a vertex by the overwriting dict walk: the
position (counted from `i`) of the last occurrence of the vertex in the
remaining walk. -/
def lastSlot : List Nat → Nat → Nat → Option Nat
  | [], _, _ => none
  | idx :: rest, i, v =>
      match lastSlot rest (i + 1) v with
      | some j => some j
      | none => if idx = v then some i else none

theorem buildUVMap_keys_nodup {α : Type} (uvLayer : List α) (dflt : α) :
    ∀ (faces : List Nat) (m : List (Nat × α)) (i : Nat),
      (m.map Prod.fst).Nodup →
      ((buildUVMap uvLayer dflt m i faces).map Prod.fst).Nodup := by
  intro faces
  induction faces with
  | nil => intro m i h; exact h
  | cons idx rest ih =>
      intro m i h
      exact ih _ (i + 1) (dinsert_keys_nodup m idx _ h)

theorem mem_buildUVMap {α : Type} (uvLayer : List α) (dflt : α) :
    ∀ (faces : List Nat) (m : List (Nat × α)) (i : Nat),
      ∀ a b, ((a, b) ∈ buildUVMap uvLayer dflt m i faces ↔
        (match lastSlot faces i a with
         | some j => b = uvLayer.getD j dflt
         | none => (a, b) ∈ m)) := by
  intro faces
  induction faces with
  | nil => intro m i a b; simp [buildUVMap, lastSlot]
  | cons idx rest ih =>
      intro m i a b
      rw [buildUVMap]
      rw [ih (dinsert m idx (uvLayer.getD i dflt)) (i + 1) a b]
      cases hls : lastSlot rest (i + 1) a with
      | some j => simp [lastSlot, hls]
      | none =>
          simp only [lastSlot, hls]
          rw [mem_dinsert]
          by_cases hia : idx = a
          · subst hia
            simp
          · simp [hia, Ne.symm hia]

theorem seenFilter_eq_append {α : Type} :
    ∀ (l acc : List (Nat × α)),
      (((acc ++ l).map Prod.fst)).Nodup → seenFilter acc l = acc ++ l := by
  intro l
  induction l with
  | nil => intro acc _; simp [seenFilter]
  | cons p rest ih =>
      intro acc h
      have hnotin : (acc.any (fun q => q.1 == p.1)) = false := by
        rw [List.any_eq_false]
        intro q hq
        simp only [beq_iff_eq]
        have := (List.nodup_append.1 (by simpa [List.map_append] using h)).2.2
        intro hqp
        exact this (List.mem_map_of_mem Prod.fst hq)
          (by simp [hqp])
      rw [seenFilter, hnotin]
      simp only [Bool.false_eq_true, if_false]
      rw [ih (acc ++ [p]) (by simpa using h)]
      simp

theorem isZeroColor_iff (c : Rat × Rat × Rat × Rat) :
    isZeroColor c = true ↔ c = (0, 0, 0, 0) := by
  obtain ⟨a, b, c2, d⟩ := c
  simp [isZeroColor, Prod.ext_iff, and_assoc]

/-- What the corner-color walk leaves in every in-range vertex slot: the
first corner color that is not all-zero (or the stored value when it was
already non-zero; the all-zero default when every corner is zero). -/
theorem collapseColors_getD (loops : List (Nat × (Rat × Rat × Rat × Rat))) :
    ∀ (state : List (Rat × Rat × Rat × Rat)) (v : Nat), v < state.length →
      (collapseColors state loops).getD v (0, 0, 0, 0) =
        if isZeroColor (state.getD v (0, 0, 0, 0)) then
          (((loops.filter (fun p => p.1 == v)).map (fun p => p.2)).find?
            (fun c => !(isZeroColor c))).getD (0, 0, 0, 0)
        else state.getD v (0, 0, 0, 0) := by
  induction loops with
  | nil =>
      intro state v hv
      by_cases hz : isZeroColor (state.getD v (0, 0, 0, 0)) = true
      · rw [if_pos hz]
        simp only [List.filter_nil, List.map_nil, List.find?_nil, Option.getD_none]
        exact (isZeroColor_iff _).1 hz
      · rw [if_neg hz]
        rfl
  | cons wc rest ih =>
      intro state v hv
      obtain ⟨w, c⟩ := wc
      rw [collapseColors]
      by_cases hw : w = v
      · subst hw
        by_cases hz : isZeroColor (state.getD w (0, 0, 0, 0)) = true
        · rw [if_pos hz]
          have hv2 : w < (state.set w c).length := by simpa using hv
          rw [ih (state.set w c) w hv2]
          have hget : (state.set w c).getD w (0, 0, 0, 0) = c := by
            simp [List.getD_eq_getElem?_getD, List.getElem?_set_self hv]
          rw [hget, if_pos hz]
          by_cases hc : isZeroColor c = true
          · simp [hc, List.filter_cons, List.find?_cons]
          · simp [hc, List.filter_cons, List.find?_cons]
        · rw [if_neg hz]
          rw [ih state w hv, if_neg hz, if_neg hz]
      · have hbeq : (w == v) = false := by simpa using hw
        have hstate : (if isZeroColor (state.getD w (0, 0, 0, 0)) then
            state.set w c else state).getD v (0, 0, 0, 0)
            = state.getD v (0, 0, 0, 0) := by
          by_cases hz : isZeroColor (state.getD w (0, 0, 0, 0)) = true
          · rw [if_pos hz]
            simp [List.getD_eq_getElem?_getD, List.getElem?_set_ne hw]
          · rw [if_neg hz]
        have hv2 : v < (if isZeroColor (state.getD w (0, 0, 0, 0)) then
            state.set w c else state).length := by
          by_cases hz : isZeroColor (state.getD w (0, 0, 0, 0)) = true
          · rw [if_pos hz]; simpa using hv
          · rw [if_neg hz]; exact hv
        rw [ih _ v hv2, hstate]
        have hfilter : (((w, c) :: rest).filter (fun p => p.1 == v))
            = rest.filter (fun p => p.1 == v) := by
          simp [List.filter_cons, hbeq]
        rw [hfilter]

instance instIsTotalKeyLe {α : Type} :
    IsTotal (Nat × α) (fun a b => a.1 ≤ b.1) :=
  ⟨fun a b => Nat.le_total a.1 b.1⟩

instance instIsTransKeyLe {α : Type} :
    IsTrans (Nat × α) (fun a b => a.1 ≤ b.1) :=
  ⟨fun _ _ _ h1 h2 => Nat.le_trans h1 h2⟩

theorem uvPairs_pairwise_lt {α : Type} (polys : List (List Nat))
    (uvLayer : List α) (dflt : α) :
    (uvPairs polys uvLayer dflt).Pairwise (fun a b => a.1 < b.1) := by
  have hnd : ((buildUVMap uvLayer dflt [] 0
      ((polys.map (fun p => p.take 3)).flatten)).map Prod.fst).Nodup :=
    buildUVMap_keys_nodup uvLayer dflt _ [] 0 (by simp)
  have hseen : seenFilter [] (buildUVMap uvLayer dflt [] 0
      ((polys.map (fun p => p.take 3)).flatten))
      = buildUVMap uvLayer dflt [] 0 ((polys.map (fun p => p.take 3)).flatten) := by
    rw [seenFilter_eq_append _ [] (by simpa using hnd)]
    simp
  unfold uvPairs
  rw [hseen]
  have hperm := List.perm_insertionSort (fun (a b : Nat × α) => a.1 ≤ b.1)
    (buildUVMap uvLayer dflt [] 0 ((polys.map (fun p => p.take 3)).flatten))
  have hsorted := List.sorted_insertionSort (fun (a b : Nat × α) => a.1 ≤ b.1)
    (buildUVMap uvLayer dflt [] 0 ((polys.map (fun p => p.take 3)).flatten))
  have hnd2 := ((hperm.map Prod.fst).nodup_iff).2 hnd
  have hne := List.pairwise_map.1 hnd2
  exact (List.Pairwise.and hsorted hne).imp
    (fun h => Nat.lt_of_le_of_ne h.1 h.2)

theorem mem_uvPairs {α : Type} (polys : List (List Nat)) (uvLayer : List α)
    (dflt : α) (v : Nat) (u : α) :
    ((v, u) ∈ uvPairs polys uvLayer dflt) ↔
      (match lastSlot ((polys.map (fun p => p.take 3)).flatten) 0 v with
       | some j => u = uvLayer.getD j dflt
       | none => False) := by
  have hnd : ((buildUVMap uvLayer dflt [] 0
      ((polys.map (fun p => p.take 3)).flatten)).map Prod.fst).Nodup :=
    buildUVMap_keys_nodup uvLayer dflt _ [] 0 (by simp)
  have hseen : seenFilter [] (buildUVMap uvLayer dflt [] 0
      ((polys.map (fun p => p.take 3)).flatten))
      = buildUVMap uvLayer dflt [] 0 ((polys.map (fun p => p.take 3)).flatten) := by
    rw [seenFilter_eq_append _ [] (by simpa using hnd)]
    simp
  unfold uvPairs
  rw [hseen, List.mem_insertionSort,
    mem_buildUVMap uvLayer dflt _ [] 0 v u]
  cases hls : lastSlot ((polys.map (fun p => p.take 3)).flatten) 0 v <;> simp

/-- C2 amended: in the export direction the collapsing is not
first-seen-wins.  For UVs, `add_vertex_UV` emits, for each vertex
referenced by the first-three-vertices polygon walk, the UV of the LAST
corner of the walk referencing it (Python dict overwriting); the buffer
lists these values with one entry per seen vertex in strictly ascending
vertex-index order.  For colors, the `pre_export_pipeline` collapse
records a corner color into a vertex slot only while the stored value is
still all-zero, so a vertex ends with its first non-all-zero corner color
(or all-zero if every corner is): first-seen-wins only among non-zero
corner colors. -/
theorem C2_amended_collapse_semantics {α : Type} (dflt : α)
    (polys : List (List Nat)) (uvLayer : List α)
    (hcov : ((polys.map (fun p => p.take 3)).flatten).length ≤ uvLayer.length) :
    (∀ v u, ((v, u) ∈ uvPairs polys uvLayer dflt) ↔
        (match lastSlot ((polys.map (fun p => p.take 3)).flatten) 0 v with
         | some j => u = uvLayer.getD j dflt
         | none => False))
      ∧ (uvPairs polys uvLayer dflt).Pairwise (fun a b => a.1 < b.1)
      ∧ add_vertex_UV_buffer polys uvLayer dflt
          = (uvPairs polys uvLayer dflt).map (fun p => p.2)
      ∧ (∀ (loops : List (Nat × (Rat × Rat × Rat × Rat)))
            (state : List (Rat × Rat × Rat × Rat)) (v : Nat),
          v < state.length →
          (collapseColors state loops).getD v (0, 0, 0, 0) =
            if isZeroColor (state.getD v (0, 0, 0, 0)) then
              (((loops.filter (fun p => p.1 == v)).map (fun p => p.2)).find?
                (fun c => !(isZeroColor c))).getD (0, 0, 0, 0)
            else state.getD v (0, 0, 0, 0)) :=
  ⟨fun v u => mem_uvPairs polys uvLayer dflt v u,
   uvPairs_pairwise_lt polys uvLayer dflt,
   rfl,
   fun loops state v hv => collapseColors_getD loops state v hv⟩

/-- Witness for C2 amended at the counterexample inputs. -/
theorem C2_amended_witness :
    ((0, 9) ∈ uvPairs [[0, 1, 2], [0, 2, 3]] [1, 2, 3, 9, 4, 5] 0 ↔
        (match lastSlot (([[0, 1, 2], [0, 2, 3]].map
            (fun p => p.take 3)).flatten) 0 0 with
         | some j => 9 = [1, 2, 3, 9, 4, 5].getD j 0
         | none => False))
      ∧ (uvPairs [[0, 1, 2], [0, 2, 3]] [1, 2, 3, 9, 4, 5] 0).Pairwise
          (fun a b => a.1 < b.1)
      ∧ (collapseColors [(0, 0, 0, 0)]
            [(0, (0, 0, 0, 0)), (0, (1, 0, 0, 1))]).getD 0 (0, 0, 0, 0) =
          (if isZeroColor (([(0, 0, 0, 0)] :
              List (Rat × Rat × Rat × Rat)).getD 0 (0, 0, 0, 0)) then
            ((([(0, (0, 0, 0, 0)), (0, (1, 0, 0, 1))].filter
                (fun p => p.1 == 0)).map (fun p => p.2)).find?
              (fun c => !(isZeroColor c))).getD (0, 0, 0, 0)
          else ([(0, 0, 0, 0)] :
              List (Rat × Rat × Rat × Rat)).getD 0 (0, 0, 0, 0)) := by
  have h := C2_amended_collapse_semantics 0 [[0, 1, 2], [0, 2, 3]]
    [1, 2, 3, 9, 4, 5] (by decide)
  exact ⟨h.1 0 9, h.2.1, h.2.2.2 [(0, (0, 0, 0, 0)), (0, (1, 0, 0, 1))]
    [(0, 0, 0, 0)] 0 (by decide)⟩

end TinyGlade
